import Mathlib

/-!
Shallow embedding of `src/main.py` (Triphobo voice-assistant backend).

The Python module has three operations the spec cares about:
* `extract_destinations` — pure keyword extraction over a static dictionary,
  using a word-bounded regex search on the lowered text;
* `make_call` — the Vapi call-broker endpoint (network modelled as an input);
* `get_destination_photos` — the Unsplash photo fetcher (network as input).

Machine-level details modelled explicitly:
* The Python regex word boundary (backslash-b): a position where exactly one neighbour is a
  word character (`[A-Za-z0-9_]` for the ASCII inputs in scope).
* Python `str.title()`: each alphabetic character is upper-cased when the
  previous character is not alphabetic, lower-cased otherwise.
* Python dict iteration order = insertion order, so categories scan as
  cities, countries, landmarks, regions.
* `raise HTTPException(...)` inside a `try` block whose handlers end in
  `except Exception` is CAUGHT by that handler (the `HTTPException` of FastAPI
  subclasses `Exception`); the model threads exceptions explicitly.
-/

namespace Vapi

/-- Python regex word character over the ASCII range: `[A-Za-z0-9_]`. -/
def wordChar (c : Char) : Bool := c.isAlphanum || c == '_'

/-- Word-character test lifted to an optional character; `none` (the edge
of the string) counts as a non-word position. -/
def isWOpt : Option Char → Bool
  | none => false
  | some c => wordChar c

/-- The Python regex word boundary: a boundary between two (possibly absent) neighbouring
characters holds when exactly one side is a word character. -/
def wordB (a b : Option Char) : Bool := isWOpt a != isWOpt b

/-- One candidate match of the word-bounded regex search at
the current position: `prev` is the character immediately before the
position (`none` at string start), `text` the rest of the string.
The pattern matches here when `p` is a literal prefix of `text` and the
`\b` assertions hold on both sides. -/
def matchHere (prev : Option Char) (p text : List Char) : Bool :=
  List.isPrefixOf p text &&
  wordB prev text.head? &&
  wordB (if p.isEmpty then prev else p.getLast?) (List.drop p.length text).head?

/-- Scan of `re.search`: try the pattern at every position, moving the
"previous character" along as we advance. -/
def searchFrom (prev : Option Char) (p : List Char) : List Char → Bool
  | [] => matchHere prev p []
  | c :: rest => matchHere prev p (c :: rest) || searchFrom (some c) p rest

/-- The word-bounded regex search of the source (re.search with the escaped phrase between two word-boundary assertions) as a Boolean:
does the phrase `p` occur in `text` as a whole word/phrase? -/
def reSearch (p text : String) : Bool := searchFrom none p.data text.data

/-- Python `str.lower()` restricted to ASCII: lower-case every character.
(Defined over the character list so that it reduces in the kernel.) -/
def strLower (s : String) : String := ⟨s.data.map Char.toLower⟩

/-- Helper for `titleCase`: the Boolean records whether the previous
character was alphabetic (Python: a cased character). -/
def titleAux : Bool → List Char → List Char
  | _, [] => []
  | prevAlpha, c :: rest =>
    (if c.isAlpha then (if prevAlpha then c.toLower else c.toUpper) else c)
      :: titleAux c.isAlpha rest

/-- Python `str.title()` restricted to ASCII: upper-case every alphabetic
character that does not follow an alphabetic character, lower-case the
rest of each word. -/
def titleCase (s : String) : String := ⟨titleAux false s.data⟩

/-- The module-level constant `DESTINATION_KEYWORDS` of `src/main.py`,
in Python dict-insertion order (cities, countries, landmarks, regions),
each list in source order. -/
def DESTINATION_KEYWORDS : List (String × List String) :=
  [("cities",
    ["paris", "london", "new york", "tokyo", "rome", "barcelona", "amsterdam",
     "berlin", "prague", "vienna", "budapest", "dubai", "singapore", "hong kong",
     "sydney", "melbourne", "san francisco", "los angeles", "chicago", "miami",
     "madrid", "lisbon", "stockholm", "copenhagen", "oslo", "helsinki", "zurich",
     "geneva", "milan", "florence", "venice", "naples", "athens", "istanbul",
     "cairo", "marrakech", "casablanca", "cape town", "johannesburg", "mumbai",
     "delhi", "bangalore", "bangkok", "phuket", "bali", "jakarta", "manila",
     "seoul", "busan", "beijing", "shanghai", "guangzhou", "taipei", "kyoto",
     "osaka", "hiroshima", "sapporo",
     "moscow", "st petersburg", "novosibirsk", "yekaterinburg", "sochi", "kazan",
     "goa", "kochi", "jaipur", "agra", "varanasi", "udaipur", "jodhpur",
     "rishikesh", "manali", "shimla", "darjeeling", "gangtok", "shillong",
     "hyderabad", "pune", "ahmedabad", "kolkata", "chandigarh", "lucknow"]),
   ("countries",
    ["france", "italy", "spain", "greece", "turkey", "egypt", "morocco",
     "south africa", "kenya", "tanzania", "india", "thailand", "vietnam",
     "cambodia", "laos", "myanmar", "indonesia", "malaysia", "philippines",
     "singapore", "japan", "south korea", "china", "taiwan", "australia",
     "new zealand", "brazil", "argentina", "chile", "peru", "colombia",
     "mexico", "costa rica", "panama", "canada", "united states", "usa",
     "united kingdom", "uk", "germany", "netherlands", "belgium", "austria",
     "switzerland", "sweden", "norway", "denmark", "finland", "iceland",
     "portugal", "czech republic", "hungary", "poland", "croatia", "slovenia",
     "russia", "ukraine", "belarus", "estonia", "latvia", "lithuania", "indonesia"]),
   ("landmarks",
    ["eiffel tower", "statue of liberty", "big ben", "colosseum", "acropolis",
     "taj mahal", "great wall", "machu picchu", "christ the redeemer",
     "petra", "angkor wat", "borobudur", "chichen itza", "neuschwanstein",
     "mount rushmore", "golden gate bridge", "sydney opera house",
     "burj khalifa", "sagrada familia", "louvre", "vatican", "buckingham palace"]),
   ("regions",
    ["tuscany", "provence", "bavaria", "andalusia", "catalonia", "patagonia",
     "amazonia", "sahara", "sahel", "maghreb", "scandinavia", "balkans",
     "caucasus", "siberia", "himalayas", "alps", "andes", "rockies",
     "caribbean", "mediterranean", "baltic", "adriatic", "aegean"])]

/-- All dictionary phrases in scan order: the nested loop
`for cat, destinations in DESTINATION_KEYWORDS.items(): for destination
in destinations:` flattened. -/
def allPhrases : List String := (DESTINATION_KEYWORDS.map Prod.snd).flatten

/-- The list `found_destinations` built by the matching loop of
`extract_destinations`: the title-cased form of every phrase whose
word-bounded pattern is found in the lowered text, in dictionary order. -/
def found_destinations (textLower : String) : List String :=
  (allPhrases.filter (fun d => reSearch d textLower)).map titleCase

/-- The dedup loop of `extract_destinations` (lines 113–120): keep an entry
unless its lower-cased form was already seen, preserving first-seen order.
The Python `set` is modelled as the list of lowered keys seen so far. -/
def dedupAux (seen : List String) : List String → List String
  | [] => []
  | d :: rest =>
    if seen.contains (strLower d) then dedupAux seen rest
    else d :: dedupAux (strLower d :: seen) rest

/-- `extract_destinations(text)` of `src/main.py`: lower the text once,
collect title-cased dictionary matches in dictionary order, then
deduplicate case-insensitively preserving order. -/
def extract_destinations (text : String) : List String :=
  dedupAux [] (found_destinations (strLower text))

/-! ### Call broker (`make_call`, lines 135–217) and photo fetcher
(`get_destination_photos`, lines 238–312).

The outbound HTTP exchange is an input of the model: a `VapiNet` /
`UnsplashNet` value says what the network did.  Each endpoint returns the
final `Except HTTPError result` visible to the HTTP client together with a
record of the outbound requests performed (a count for `make_call`, the
list of query-parameter sets for `get_destination_photos`). -/

/-- The process configuration read from the environment (empty string when
the variable is unset, as `os.getenv(..., "")` yields). -/
structure Config where
  VAPI_PRIVATE_KEY : String
  VAPI_ASSISTANT_ID : String
  UNSPLASH_ACCESS_KEY : String

/-- An error surfaced to the HTTP client: the `HTTPException` of FastAPI
reduced to its observable `status_code` and `detail`. -/
structure HTTPError where
  status_code : Nat
  detail : String
  deriving DecidableEq, Repr

/-- The nested `transport` object of a Vapi call-creation response body:
`websocketCallUrl` may be absent. -/
structure TransportObj where
  websocketCallUrl : Option String
  deriving DecidableEq, Repr

/-- The JSON body of a Vapi call-creation response, reduced to the fields
`make_call` reads: the optional `transport` object and the optional `id`. -/
structure VapiBody where
  transport : Option TransportObj
  id : Option String
  deriving DecidableEq, Repr

/-- What the network did for the single POST of `make_call`: either a response
(status, raw text, and the JSON parse of the body — `none` when
`response.json()` would raise `json.JSONDecodeError`), or a transport
failure (`aiohttp.ClientError`). -/
inductive VapiNet where
  | ok (status : Nat) (text : String) (json : Option VapiBody)
  | netFail
  deriving DecidableEq, Repr

/-- The success payload returned by `make_call`. -/
structure CallResult where
  url : String
  callId : String
  status : String
  deriving DecidableEq, Repr

/-- The exceptions that can escape the `try` block of `make_call`, to be
dispatched by its `except` clauses. -/
inductive PyExn where
  | httpExc (e : HTTPError)
  | clientError
  | jsonDecodeError
  deriving DecidableEq, Repr

/-- The body of the `try` block of `make_call` (lines 161–198): check the
status, parse JSON, validate the transport shape, and build the result;
each `raise HTTPException(...)` becomes an `httpExc` exception value. -/
def make_call_try (net : VapiNet) : Except PyExn CallResult :=
  match net with
  | .netFail => .error .clientError
  | .ok status text json =>
    if status = 200 ∨ status = 201 then
      match json with
      | none => .error .jsonDecodeError
      | some body =>
        match body.transport with
        | none => .error (.httpExc ⟨500, "Invalid response from Vapi API"⟩)
        | some t =>
          match t.websocketCallUrl with
          | none => .error (.httpExc ⟨500, "Invalid response from Vapi API"⟩)
          | some url => .ok ⟨url, body.id.getD "unknown", "created"⟩
    else
      .error (.httpExc ⟨status, "Vapi API error: " ++ text⟩)

/-- `make_call` of `src/main.py`.  The second component counts outbound
POST requests (0 when the configuration guard fires, 1 otherwise).
The `except` chain runs in source order: `aiohttp.ClientError` → 503,
`json.JSONDecodeError` → 502, and `except Exception` → 500 — the last
clause also catches the `HTTPException`s raised inside the `try` block,
so a provider error status is rewritten to a generic 500. -/
def make_call (cfg : Config) (net : VapiNet) : Except HTTPError CallResult × Nat :=
  if cfg.VAPI_PRIVATE_KEY = "" ∨ cfg.VAPI_ASSISTANT_ID = "" then
    (.error ⟨500,
      "Vapi configuration is incomplete. Check VAPI_PRIVATE_KEY and VAPI_ASSISTANT_ID."⟩,
     0)
  else
    match make_call_try net with
    | .ok r => (.ok r, 1)
    | .error .clientError => (.error ⟨503, "Network error connecting to Vapi API"⟩, 1)
    | .error .jsonDecodeError => (.error ⟨502, "Invalid response from Vapi API"⟩, 1)
    | .error (.httpExc _) => (.error ⟨500, "Internal server error"⟩, 1)

/-- The query parameters `get_destination_photos` sends to
`GET /search/photos` (lines 256–262). -/
structure UnsplashParams where
  query : String
  per_page : Int
  orientation : String
  content_filter : String
  order_by : String
  deriving DecidableEq, Repr

/-- One item of the Unsplash search response, reduced to the fields the
mapping loop reads; `alt_description` is the only one the code treats as
optional (`photo.get(...)`), the rest are required keys. -/
structure UPhoto where
  id : String
  urls_regular : String
  urls_small : String
  alt_description : Option String
  user_name : String
  user_links_html : String
  links_download_location : String
  deriving DecidableEq, Repr

/-- The Unsplash search response body: `data.get("results", [])`. -/
structure UBody where
  results : Option (List UPhoto)
  deriving DecidableEq, Repr

/-- What the network did for the photo search GET: a response with status
and JSON parse, or a transport failure. -/
inductive UnsplashNet where
  | ok (status : Nat) (json : Option UBody)
  | netFail
  deriving DecidableEq, Repr

/-- One photo record of the response of the endpoint. -/
structure Photo where
  id : String
  url : String
  thumb : String
  alt : String
  photographer : String
  photographer_url : String
  download_location : String
  deriving DecidableEq, Repr

/-- The response of `get_destination_photos` on success. -/
structure PhotoQueryResult where
  destination : String
  photos : List Photo
  total : Nat
  deriving DecidableEq, Repr

/-- The mapping of one Unsplash result item into a `Photo` (lines
282–291).  the Python alt-text read falls back both when the key is absent and when its value
is the (falsy) empty string. -/
def mapPhoto (destination : String) (p : UPhoto) : Photo :=
  ⟨p.id, p.urls_regular, p.urls_small,
   (match p.alt_description with
    | some a => if a = "" then destination ++ " travel photo" else a
    | none => destination ++ " travel photo"),
   p.user_name, p.user_links_html, p.links_download_location⟩

/-- `get_destination_photos` of `src/main.py`.  The second component lists
the outbound GET requests with their query parameters (empty when the
configuration guard fires).  `per_page` is `min(count, 30)` on the
Python `int`, so negative counts pass through unclamped.  As in
`make_call`, the `HTTPException` raised for a non-200 provider status
inside the `try` block is caught by `except Exception` and surfaces as a
generic 500; a JSON decode failure has no dedicated clause here and also
lands in `except Exception`. -/
def get_destination_photos (cfg : Config) (destination : String) (count : Int)
    (net : UnsplashNet) : Except HTTPError PhotoQueryResult × List UnsplashParams :=
  if cfg.UNSPLASH_ACCESS_KEY = "" then
    (.error ⟨503, "Unsplash API key not configured"⟩, [])
  else
    let params : UnsplashParams :=
      ⟨destination ++ " travel destination landmark", min count 30,
       "landscape", "high", "relevant"⟩
    match net with
    | .netFail => (.error ⟨503, "Network error connecting to Unsplash API"⟩, [params])
    | .ok status json =>
      if status = 200 then
        match json with
        | none => (.error ⟨500, "Internal server error"⟩, [params])
        | some body =>
          let photos := (body.results.getD []).map (mapPhoto destination)
          (.ok ⟨destination, photos, photos.length⟩, [params])
      else
        (.error ⟨500, "Internal server error"⟩, [params])

end Vapi
namespace Vapi

/-- Boundary characters admitted by the "whole-phrase" notion of the spec:
the neighbouring character is either absent (string start/end) or
non-alphanumeric. -/
def freeBound (o : Option Char) : Prop := ∀ c, o = some c → c.isAlphanum = false

/-- The character that precedes the suffix reached after consuming `s`:
the last character of `s`, or `prev` when `s` is empty. -/
def backChar (s : List Char) (prev : Option Char) : Option Char :=
  match s.getLast? with
  | some c => some c
  | none => prev

theorem backChar_none (s : List Char) : backChar s none = s.getLast? := by
  unfold backChar
  rcases s.getLast? with _ | c <;> rfl

theorem backChar_cons (c : Char) (s : List Char) (prev : Option Char) :
    backChar (c :: s) prev = backChar s (some c) := by
  cases s with
  | nil => rfl
  | cons a s' =>
    unfold backChar
    rw [List.getLast?_cons_cons]
    cases hq : (a :: s').getLast? with
    | none => exact absurd (List.getLast?_eq_none_iff.mp hq) (by simp)
    | some x => rfl

theorem freeBound_of_not_word {o : Option Char} (h : isWOpt o = false) : freeBound o := by
  intro c hc
  subst hc
  unfold isWOpt wordChar at h
  exact (Bool.or_eq_false_iff.mp h).1

theorem isPrefixOf_exists {p : List Char} :
    ∀ {text : List Char}, List.isPrefixOf p text = true → ∃ t, text = p ++ t := by
  induction p with
  | nil => intro text _; exact ⟨text, rfl⟩
  | cons c p ih =>
    intro text h
    cases text with
    | nil => simp [List.isPrefixOf] at h
    | cons c' text =>
      rw [List.isPrefixOf, Bool.and_eq_true, beq_iff_eq] at h
      obtain ⟨rfl, hp⟩ := h
      obtain ⟨t, rfl⟩ := ih hp
      exact ⟨t, rfl⟩

theorem matchHere_sound {prev : Option Char} {p text : List Char}
    (hp : p ≠ []) (h1 : ∀ c, p.head? = some c → wordChar c = true)
    (h2 : ∀ c, p.getLast? = some c → wordChar c = true)
    (h : matchHere prev p text = true) :
    ∃ t, text = p ++ t ∧ isWOpt prev = false ∧ isWOpt t.head? = false := by
  unfold matchHere at h
  rw [Bool.and_eq_true, Bool.and_eq_true] at h
  obtain ⟨⟨hpre, hb1⟩, hb2⟩ := h
  obtain ⟨t, rfl⟩ := isPrefixOf_exists hpre
  refine ⟨t, rfl, ?_, ?_⟩
  · obtain ⟨c, p', rfl⟩ : ∃ c p', p = c :: p' := by
      cases p with
      | nil => exact absurd rfl hp
      | cons c p' => exact ⟨c, p', rfl⟩
    have hw : wordChar c = true := h1 c rfl
    rw [List.cons_append, List.head?_cons] at hb1
    unfold wordB at hb1
    simp [isWOpt, hw] at hb1
    exact hb1
  · obtain ⟨lc, hlc⟩ : ∃ lc, p.getLast? = some lc := by
      cases hq : p.getLast? with
      | none => exact absurd (List.getLast?_eq_none_iff.mp hq) hp
      | some lc => exact ⟨lc, rfl⟩
    have hw : wordChar lc = true := h2 lc hlc
    have hemp : p.isEmpty = false := by
      cases p with
      | nil => exact absurd rfl hp
      | cons a b => rfl
    rw [hemp] at hb2
    simp only [Bool.false_eq_true, if_false] at hb2
    rw [hlc, List.drop_left] at hb2
    unfold wordB at hb2
    simp [isWOpt, hw] at hb2
    exact hb2

theorem searchFrom_sound {p : List Char} (hp : p ≠ [])
    (h1 : ∀ c, p.head? = some c → wordChar c = true)
    (h2 : ∀ c, p.getLast? = some c → wordChar c = true) :
    ∀ (text : List Char) (prev : Option Char), searchFrom prev p text = true →
      ∃ s t, text = s ++ p ++ t ∧ freeBound (backChar s prev) ∧ freeBound t.head? := by
  intro text
  induction text with
  | nil =>
    intro prev h
    rw [searchFrom] at h
    obtain ⟨t, ht, _, _⟩ := matchHere_sound hp h1 h2 h
    cases p with
    | nil => exact absurd rfl hp
    | cons a b => simp at ht
  | cons c rest ih =>
    intro prev h
    rw [searchFrom, Bool.or_eq_true] at h
    rcases h with h | h
    · obtain ⟨t, ht, hprev, hhead⟩ := matchHere_sound hp h1 h2 h
      refine ⟨[], t, by simpa using ht, ?_, freeBound_of_not_word hhead⟩
      exact freeBound_of_not_word hprev
    · obtain ⟨s, t, ht, hback, hhead⟩ := ih (some c) h
      refine ⟨c :: s, t, by simp [ht], ?_, hhead⟩
      rw [backChar_cons]
      exact hback

end Vapi
namespace Vapi

/-- A phrase is well-ended when it is nonempty and its first and last
characters are regex word characters — true of every dictionary phrase,
and the side condition under which a word-bounded match implies
non-alphanumeric surroundings. -/
def endsOk (p : String) : Bool :=
  match p.data.head?, p.data.getLast? with
  | some a, some b => wordChar a && wordChar b
  | _, _ => false

theorem allPhrases_endsOk : allPhrases.all endsOk = true := by decide

theorem endsOk_spec {p : String} (h : endsOk p = true) :
    p.data ≠ [] ∧ (∀ c, p.data.head? = some c → wordChar c = true) ∧
      (∀ c, p.data.getLast? = some c → wordChar c = true) := by
  unfold endsOk at h
  cases ha : p.data.head? with
  | none => rw [ha] at h; cases hb : p.data.getLast? <;> rw [hb] at h <;> simp at h
  | some a =>
    cases hb : p.data.getLast? with
    | none => rw [ha, hb] at h; simp at h
    | some b =>
      rw [ha, hb, Bool.and_eq_true] at h
      refine ⟨?_, ?_, ?_⟩
      · intro hnil; rw [hnil] at ha; simp at ha
      · intro c hc; injection hc with hac; subst hac; exact h.1
      · intro c hc; injection hc with hbc; subst hbc; exact h.2

theorem dedupAux_sublist (l : List String) :
    ∀ seen, (dedupAux seen l).Sublist l := by
  induction l with
  | nil => intro seen; simp [dedupAux]
  | cons d rest ih =>
    intro seen
    simp only [dedupAux]
    split
    · exact List.Sublist.cons d (ih seen)
    · exact List.Sublist.cons₂ d (ih _)

theorem dedupAux_fresh (l : List String) :
    ∀ seen, (∀ x, x ∈ dedupAux seen l → seen.contains (strLower x) = false)
      ∧ (dedupAux seen l).Pairwise (fun a b => strLower a ≠ strLower b) := by
  induction l with
  | nil =>
    intro seen
    refine ⟨fun x hx => absurd hx (by simp [dedupAux]), by simp [dedupAux]⟩
  | cons d rest ih =>
    intro seen
    simp only [dedupAux]
    split
    case isTrue h => exact ih seen
    case isFalse h =>
      obtain ⟨ihf, ihp⟩ := ih (strLower d :: seen)
      have hsplit : ∀ x, x ∈ dedupAux (strLower d :: seen) rest →
          (strLower x = strLower d → False) ∧ seen.contains (strLower x) = false := by
        intro x hx
        have hc := ihf x hx
        rw [List.contains_cons, Bool.or_eq_false_iff, beq_eq_false_iff_ne] at hc
        exact ⟨fun he => hc.1 he, hc.2⟩
      constructor
      · intro x hx
        rcases List.mem_cons.mp hx with rfl | hx'
        · exact Bool.eq_false_iff.mpr h
        · exact (hsplit x hx').2
      · refine List.Pairwise.cons ?_ ihp
        intro b hb
        exact fun he => (hsplit b hb).1 he.symm

end Vapi
namespace Vapi

/-- C1 (counterexample): on the input of the end-to-end scenario the
extractor does NOT return the claimed list — the scan runs in dictionary
order (cities, countries, landmarks, regions), so Japan, a country, is
emitted before the Eiffel Tower, a landmark. -/
theorem C1_claimed_order_false :
    extract_destinations
        "I want to visit Paris and then see the Eiffel Tower before heading to Japan"
      ≠ ["Paris", "Eiffel Tower", "Japan"] := by decide

/-- C1 (amended): on the scenario input the extractor returns
Paris, Japan, Eiffel Tower in that order, and in general the result of an
extraction is ordered by dictionary position: it is a sublist of the
title-cased phrase list in dictionary iteration order, not by first
occurrence in the input text. -/
theorem C1_dictionary_order :
    extract_destinations
        "I want to visit Paris and then see the Eiffel Tower before heading to Japan"
      = ["Paris", "Japan", "Eiffel Tower"]
    ∧ ∀ text, (extract_destinations text).Sublist (allPhrases.map titleCase) := by
  refine ⟨by decide, ?_⟩
  intro text
  exact (dedupAux_sublist _ []).trans
    (List.Sublist.map titleCase (List.filter_sublist _))

/-- C1 witness: the amended general order statement at a concrete input. -/
theorem C1_dictionary_order_witness :
    (extract_destinations "paris").Sublist (allPhrases.map titleCase) :=
  C1_dictionary_order.2 "paris"

/-- C4: whole-phrase matching.  Whenever the word-bounded search used by
`extract_destinations` matches a dictionary phrase in a text, the match is
bounded on both sides by a non-alphanumeric character or the string edge;
in particular a text containing "iranian cuisine" does not match the
phrase "iran", while "new york city" matches "new york". -/
theorem C4_whole_phrase :
    (∀ p text, p ∈ allPhrases → reSearch p text = true →
      ∃ s t, text.data = s ++ p.data ++ t
        ∧ freeBound s.getLast? ∧ freeBound t.head?)
    ∧ reSearch "iran" (strLower "Iranian cuisine") = false
    ∧ reSearch "new york" (strLower "new york city") = true := by
  refine ⟨?_, by decide, by decide⟩
  intro p text hmem hsearch
  have hok : endsOk p = true := List.all_eq_true.mp allPhrases_endsOk p hmem
  obtain ⟨hne, h1, h2⟩ := endsOk_spec hok
  obtain ⟨s, t, ht, hb, hh⟩ := searchFrom_sound hne h1 h2 text.data none hsearch
  rw [backChar_none] at hb
  exact ⟨s, t, ht, hb, hh⟩

/-- C4 witness: the general boundedness statement applied to the phrase
"new york" matching inside a concrete text. -/
theorem C4_whole_phrase_witness :
    ∃ s t, (String.data "i love new york city") = s ++ (String.data "new york") ++ t
      ∧ freeBound s.getLast? ∧ freeBound t.head? :=
  C4_whole_phrase.1 "new york" "i love new york city" (by decide) (by decide)

/-- C5: the result never holds two case-insensitively equal entries; the
repeated-casing text collapses to a single entry, and a phrase present in
two dictionary categories (singapore: cities and countries) is kept only
once, at the position of its first (cities) occurrence — hence before
France, which only the later countries category can emit. -/
theorem C5_dedup :
    extract_destinations "Paris and paris and PARIS" = ["Paris"]
    ∧ (∀ text, (extract_destinations text).Pairwise
        (fun a b => strLower a ≠ strLower b))
    ∧ extract_destinations "singapore and france" = ["Singapore", "France"] := by
  refine ⟨by decide, ?_, by decide⟩
  intro text
  exact (dedupAux_fresh (found_destinations (strLower text)) []).2

/-- C5 witness: pairwise case-insensitive distinctness at a concrete input. -/
theorem C5_dedup_witness :
    (extract_destinations "Paris and paris and PARIS").Pairwise
      (fun a b => strLower a ≠ strLower b) :=
  C5_dedup.2.1 "Paris and paris and PARIS"

/-- C7: `extract_destinations` is a total function of its input (the model
is a Lean function, so it terminates and raises nothing); the empty string
yields the empty list, and so does any text in which no dictionary phrase
matches. -/
theorem C7_total :
    extract_destinations "" = []
    ∧ ∀ text, (∀ p, p ∈ allPhrases → reSearch p (strLower text) = false) →
        extract_destinations text = [] := by
  refine ⟨by decide, ?_⟩
  intro text h
  have hfil : allPhrases.filter (fun d => reSearch d (strLower text)) = [] :=
    List.filter_eq_nil_iff.mpr (fun a ha => by simp [h a ha])
  simp [extract_destinations, found_destinations, hfil, dedupAux]

set_option maxRecDepth 8192 in
/-- C7 witness: a match-free text at a concrete input. -/
theorem C7_total_witness : extract_destinations "hello world" = [] :=
  C7_total.2 "hello world" (by decide)

/-- C10: every extracted entry is the title-cased form of a dictionary
phrase, and the result length never exceeds the number of dictionary
entries. -/
theorem C10_dictionary_invariant :
    (∀ text d, d ∈ extract_destinations text →
        ∃ p, p ∈ allPhrases ∧ d = titleCase p)
    ∧ ∀ text, (extract_destinations text).length ≤ allPhrases.length := by
  constructor
  · intro text d hd
    have hd' : d ∈ found_destinations (strLower text) :=
      (dedupAux_sublist _ []).subset hd
    unfold found_destinations at hd'
    obtain ⟨p, hp, rfl⟩ := List.mem_map.mp hd'
    exact ⟨p, (List.mem_filter.mp hp).1, rfl⟩
  · intro text
    calc (extract_destinations text).length
        ≤ (found_destinations (strLower text)).length :=
          (dedupAux_sublist _ []).length_le
      _ ≤ allPhrases.length := by
          unfold found_destinations
          rw [List.length_map]
          exact List.length_filter_le _ _

/-- C10 witness: the membership invariant at a concrete extraction. -/
theorem C10_dictionary_invariant_witness :
    ∃ p, p ∈ allPhrases ∧ "Paris" = titleCase p :=
  C10_dictionary_invariant.1 "Paris!" "Paris" (by decide)

/-- C6: with an empty private key or assistant id, `make_call` fails at
once with the 500 configuration error and performs zero outbound calls. -/
theorem C6_config_guard :
    ∀ cfg net, cfg.VAPI_PRIVATE_KEY = "" ∨ cfg.VAPI_ASSISTANT_ID = "" →
      make_call cfg net =
        (.error ⟨500,
          "Vapi configuration is incomplete. Check VAPI_PRIVATE_KEY and VAPI_ASSISTANT_ID."⟩,
         0) := by
  intro cfg net h
  unfold make_call
  rw [if_pos h]

/-- C6 witness: the configuration guard at a concrete configuration. -/
theorem C6_config_guard_witness :
    make_call ⟨"", "asst", "u"⟩ .netFail =
      (.error ⟨500,
        "Vapi configuration is incomplete. Check VAPI_PRIVATE_KEY and VAPI_ASSISTANT_ID."⟩,
       0) :=
  C6_config_guard ⟨"", "asst", "u"⟩ .netFail (Or.inl rfl)

/-- C9: on a successful (200 or 201), well-formed provider response,
`make_call` returns the websocket URL from the transport object, status
"created", and the id of the body, defaulting to the literal "unknown"
when the id field is absent. -/
theorem C9_success_result :
    ∀ cfg status text body t url,
      cfg.VAPI_PRIVATE_KEY ≠ "" → cfg.VAPI_ASSISTANT_ID ≠ "" →
      status = 200 ∨ status = 201 →
      body.transport = some t → t.websocketCallUrl = some url →
      make_call cfg (.ok status text (some body)) =
        (.ok ⟨url, body.id.getD "unknown", "created"⟩, 1) := by
  intro cfg status text body t url hk ha hs htr hurl
  rcases hs with rfl | rfl <;>
    simp [make_call, make_call_try, hk, ha, htr, hurl]

/-- C9 witness: a concrete successful response with the id field absent,
yielding the literal "unknown" call identifier. -/
theorem C9_success_result_witness :
    make_call ⟨"k", "a", ""⟩ (.ok 201 "" (some ⟨some ⟨some "wss://x"⟩, none⟩)) =
      (.ok ⟨"wss://x", "unknown", "created"⟩, 1) :=
  C9_success_result ⟨"k", "a", ""⟩ 201 "" ⟨some ⟨some "wss://x"⟩, none⟩
    ⟨some "wss://x"⟩ "wss://x" (by decide) (by decide) (Or.inr rfl) rfl rfl

/-- C2 (code bug): a provider status of 404 with body "Not Found" does NOT
surface as a 404 with that body — the `HTTPException` carrying the
provider status is raised inside the `try` block and caught by the final
`except Exception` clause, which replaces it with a generic 500
"Internal server error". -/
theorem C2_provider_status_swallowed :
    make_call ⟨"key", "asst", ""⟩ (.ok 404 "Not Found" none) =
      (.error ⟨500, "Internal server error"⟩, 1) := by rfl

/-- C3 (code bug): a 403 from the image provider does NOT surface as a
403 — as in `make_call`, the raised `HTTPException` is caught by
`except Exception` and replaced with a generic 500. -/
theorem C3_forbidden_swallowed :
    get_destination_photos ⟨"", "", "ukey"⟩ "Paris" 6 (.ok 403 none) =
      (.error ⟨500, "Internal server error"⟩,
       [⟨"Paris travel destination landmark", 6, "landscape", "high", "relevant"⟩]) := by
  rfl

/-- C8: whenever the key is configured, the single search request carries
per_page = min(count, 30); min(50, 30) = 30, and any count at most 30 —
including zero and negative values — passes through unchanged. -/
theorem C8_per_page_clamp :
    (∀ cfg dest count net, cfg.UNSPLASH_ACCESS_KEY ≠ "" →
      (get_destination_photos cfg dest count net).2 =
        [⟨dest ++ " travel destination landmark", min count 30,
          "landscape", "high", "relevant"⟩])
    ∧ min (50 : Int) 30 = 30
    ∧ ∀ count : Int, count ≤ 30 → min count 30 = count := by
  refine ⟨?_, by decide, fun c hc => min_eq_left hc⟩
  intro cfg dest count net h
  cases net with
  | netFail => simp [get_destination_photos, h]
  | ok status json =>
    cases json with
    | none => by_cases hs : status = 200 <;> simp [get_destination_photos, h, hs]
    | some body => by_cases hs : status = 200 <;> simp [get_destination_photos, h, hs]

/-- C8 witness: a request with count 50 sends per_page 30, and one with a
negative count sends it unchanged. -/
theorem C8_per_page_clamp_witness :
    (get_destination_photos ⟨"", "", "k"⟩ "Paris" 50 (.ok 200 (some ⟨none⟩))).2 =
      [⟨"Paris travel destination landmark", min (50 : Int) 30,
        "landscape", "high", "relevant"⟩] :=
  C8_per_page_clamp.1 ⟨"", "", "k"⟩ "Paris" 50 (.ok 200 (some ⟨none⟩)) (by decide)

end Vapi
